import Mathlib

/- Shallow embedding of the cost analytics core of Main_Go_Service.go
   (Smart Cloud Cost Analytics Dashboard).

   Modelling conventions:
   - Go float64 is modelled by the rationals; every algorithm of the core is
     rational arithmetic except the square root inside BigQuery STDDEV, which
     is never taken here: a comparison dev.abs / sqrt v > t (with v > 0) is
     encoded by its exact real-arithmetic equivalent t < 0 OR t^2 * v < dev^2.
   - Calendar dates (DATE(usage_start_time) and time.Time) are modelled by
     day numbers in the integers; AddDate(0, 0, i) becomes addition of i.
   - Go maps are modelled as association lists with unique keys in which a
     later assignment overwrites the earlier binding (mapInsert below), which
     is exactly the behaviour of serviceCosts[sc.ServiceName] = sc.Cost.
   - The SQL embedded in the source is part of the source: the GROUP BY,
     HAVING COUNT(*) >= 7, NULLIF(stddev, 0) and date-window clauses are
     embedded faithfully.  CURRENT_DATE() is exposed as a parameter: the
     evaluation date (the day before CURRENT_DATE) is the parameter evalDate,
     so CURRENT_DATE = evalDate + 1.
   - Row order of a query result (ORDER BY) is modelled as first-occurrence
     order of the grouping keys; every claim proved below is a membership or
     emptiness property, insensitive to the order of the produced rows.
   - The Description field of Anomaly (a formatted display string) is not
     modelled.
-/

namespace CostService

/-- CostData (Go struct): one billing line item. usageDate is the day number
of DATE(usage_start_time); credits is the summed credit amount from the
credits array (signed, as in the source). -/
structure CostData where
  projectID : String
  serviceName : String
  usageDate : ℤ
  cost : ℚ
  credits : ℚ
deriving DecidableEq

/-- CostTrend (Go struct): one aggregated day. ServiceCost and ProjectCost
are Go maps, modelled as association lists with unique keys. -/
structure CostTrend where
  date : ℤ
  totalCost : ℚ
  serviceCost : List (String × ℚ)
  projectCost : List (String × ℚ)
deriving DecidableEq, Inhabited

/-- Severity levels of the anomaly detector (the strings High, Medium, Low). -/
inductive Severity where
  | Low : Severity
  | Medium : Severity
  | High : Severity
deriving DecidableEq

/-- Anomaly (Go struct) without the formatted Description display string. -/
structure Anomaly where
  date : ℤ
  projectID : String
  serviceName : String
  actualCost : ℚ
  expectedCost : ℚ
  deviationPct : ℚ
  severity : Severity
deriving DecidableEq

/-- Net cost of a line item: cost + credits (the SQL always sums
cost + total_credits). -/
def netCost (r : CostData) : ℚ := r.cost + r.credits

/-- Distinct elements of a list in order of first occurrence, the order in
which a streaming GROUP BY first meets each key. -/
def firstKeysAux {α : Type} [DecidableEq α] (seen : List α) : List α → List α
  | [] => []
  | a :: as => if a ∈ seen then firstKeysAux seen as else a :: firstKeysAux (a :: seen) as

def firstKeys {α : Type} [DecidableEq α] (l : List α) : List α := firstKeysAux [] l

/-- Total net cost of one (usage_date, project_id, service_name) group: the
SUM(cost + credits) of the daily_costs and historical_data CTEs. -/
def dailyNet (records : List CostData) (d : ℤ) (p s : String) : ℚ :=
  ((records.filter (fun r =>
    decide (r.usageDate = d ∧ r.projectID = p ∧ r.serviceName = s))).map netCost).sum

/-- The (project, service) pairs having a record on day d, in first-occurrence
order: the groups of the daily_costs CTE for that day. -/
def pairsOn (records : List CostData) (d : ℤ) : List (String × String) :=
  firstKeys ((records.filter (fun r => decide (r.usageDate = d))).map
    (fun r => (r.projectID, r.serviceName)))

/-- Distinct usage dates in ascending order: the GROUP BY usage_date plus
ORDER BY usage_date of the aggregated_costs CTE. -/
def sortedDates (records : List CostData) : List ℤ :=
  List.insertionSort (fun a b => a ≤ b) (firstKeys (records.map (fun r => r.usageDate)))

/-- Assignment m[k] = v on a Go map modelled as an association list with
unique keys: overwrite the binding of k if present, append otherwise. -/
def mapInsert (m : List (String × ℚ)) (k : String) (v : ℚ) : List (String × ℚ) :=
  if m.any (fun kv => kv.1 == k) then m.map (fun kv => if kv.1 == k then (k, v) else kv)
  else m ++ [(k, v)]

/-- Sum of the values stored in a Go map modelled as an association list with
unique keys. -/
def mapValuesSum (m : List (String × ℚ)) : ℚ := (m.map (fun kv => kv.2)).sum

/-- One CostTrend row of GetCostTrends: daily_total is the sum over the
(project, service) groups of the day; the ServiceCost and ProjectCost maps
are built exactly as in the Go loop, one plain map assignment per element of
the service_costs and project_costs arrays (duplicate keys overwrite). -/
def trendOn (records : List CostData) (d : ℤ) : CostTrend :=
  { date := d
    totalCost := ((pairsOn records d).map (fun ps => dailyNet records d ps.1 ps.2)).sum
    serviceCost := ((pairsOn records d).map
        (fun ps => (ps.2, dailyNet records d ps.1 ps.2))).foldl
      (fun m kv => mapInsert m kv.1 kv.2) []
    projectCost := ((pairsOn records d).map
        (fun ps => (ps.1, dailyNet records d ps.1 ps.2))).foldl
      (fun m kv => mapInsert m kv.1 kv.2) [] }

/-- GetCostTrends over an in-memory record set: the WHERE clause keeps the
last days days before current (= CURRENT_DATE); one CostTrend per distinct
usage date, ascending. -/
def GetCostTrends (records : List CostData) (days current : ℤ) : List CostTrend :=
  (sortedDates (records.filter (fun r => decide (current - days ≤ r.usageDate)))).map
    (trendOn (records.filter (fun r => decide (current - days ≤ r.usageDate))))

/-- Mean of a list of daily costs: AVG(daily_cost). -/
def mean (l : List ℚ) : ℚ := l.sum / l.length

/-- Sample variance of a list of daily costs: the square of BigQuery
STDDEV(daily_cost), which is the sample standard deviation. -/
def varSamp (l : List ℚ) : ℚ :=
  ((l.map (fun x => (x - mean l) ^ 2)).sum) / ((l.length : ℚ) - 1)

/-- Dates contributing a historical daily-cost sample for a pair: within the
lookback window (usage_date at least CURRENT_DATE - days, with
CURRENT_DATE = evalDate + 1) and strictly before the evaluation day
(usage_date earlier than CURRENT_DATE - 1 in the stats CTE). -/
def sampleDates (records : List CostData) (days evalDate : ℤ) (p s : String) : List ℤ :=
  firstKeys ((records.filter (fun r =>
    decide (r.projectID = p ∧ r.serviceName = s ∧
      evalDate + 1 - days ≤ r.usageDate ∧ r.usageDate < evalDate))).map (fun r => r.usageDate))

/-- Historical daily-cost samples of a (project, service) pair, one per date
with data: the rows of historical_data feeding the stats CTE. -/
def samples (records : List CostData) (days evalDate : ℤ) (p s : String) : List ℚ :=
  (sampleDates records days evalDate p s).map (fun d => dailyNet records d p s)

/-- Baseline mean of a pair: avg_cost in the stats CTE (the expected cost). -/
def baselineMean (records : List CostData) (days evalDate : ℤ) (p s : String) : ℚ :=
  mean (samples records days evalDate p s)

/-- Baseline sample variance of a pair: the square of stddev_cost. -/
def baselineVar (records : List CostData) (days evalDate : ℤ) (p s : String) : ℚ :=
  varSamp (samples records days evalDate p s)

/-- Actual cost of a pair on the evaluation day: daily_cost of recent_costs. -/
def evalCost (records : List CostData) (evalDate : ℤ) (p s : String) : ℚ :=
  dailyNet records evalDate p s

/-- Deviation of the evaluation-day cost from the baseline mean. -/
def devOf (records : List CostData) (days evalDate : ℤ) (p s : String) : ℚ :=
  evalCost records evalDate p s - baselineMean records days evalDate p s

/-- The (project, service) pairs with a record on the evaluation day, the
groups of the recent_costs CTE. -/
def recentPairs (records : List CostData) (evalDate : ℤ) : List (String × String) :=
  firstKeys ((records.filter (fun r => decide (r.usageDate = evalDate))).map
    (fun r => (r.projectID, r.serviceName)))

/-- Severity of a finding, the if / else-if / else chain of the Go loop body
on the z-score, encoded on squares: z > 3 becomes 9 * v < d2 and z > 2
becomes 4 * v < d2, where v is the baseline variance and d2 the squared
deviation (so z^2 = d2 / v when v > 0). The initial Medium default of the
Go code is dead, since the chain covers every case. -/
def severityOf (v d2 : ℚ) : Severity :=
  if 9 * v < d2 then Severity.High
  else if 4 * v < d2 then Severity.Medium
  else Severity.Low

/-- One pair of the join in DetectAnomalies. The HAVING COUNT(*) >= 7 gate
drops pairs with fewer than 7 samples. The WHERE clause keeps a row when
ABS(daily_cost - avg_cost) / NULLIF(stddev_cost, 0) > threshold: with
stddev = 0 the z-score is NULL and the row is dropped, hence the 0 < var
conjunct; otherwise z > t is encoded without square roots by its exact
real-arithmetic equivalent (t < 0, where any z qualifies since z is an
absolute value, or t^2 * var < dev^2). The emitted Anomaly is built exactly
as in the Go loop body: deviationPct divides by the expected cost
unconditionally, and severity comes from the z > 3 / z > 2 chain, encoded as
9 * var < dev^2 and 4 * var < dev^2. -/
def scorePair (records : List CostData) (days evalDate : ℤ) (t : ℚ)
    (ps : String × String) : Option Anomaly :=
  if (samples records days evalDate ps.1 ps.2).length < 7 then none
  else if 0 < baselineVar records days evalDate ps.1 ps.2 ∧
      (t < 0 ∨ t ^ 2 * baselineVar records days evalDate ps.1 ps.2 <
        devOf records days evalDate ps.1 ps.2 ^ 2) then
    some
      { date := evalDate
        projectID := ps.1
        serviceName := ps.2
        actualCost := evalCost records evalDate ps.1 ps.2
        expectedCost := baselineMean records days evalDate ps.1 ps.2
        deviationPct := (evalCost records evalDate ps.1 ps.2 -
            baselineMean records days evalDate ps.1 ps.2) /
          baselineMean records days evalDate ps.1 ps.2 * 100
        severity := severityOf (baselineVar records days evalDate ps.1 ps.2)
          (devOf records days evalDate ps.1 ps.2 ^ 2) }
  else none

/-- DetectAnomalies over an in-memory record set: score every evaluation-day
pair against its baseline. Row order (ORDER BY z_score DESC) is not
modelled; every property proved below is order-insensitive. -/
def DetectAnomalies (records : List CostData) (days evalDate : ℤ) (t : ℚ) : List Anomaly :=
  (recentPairs records evalDate).filterMap (scorePair records days evalDate t)

/-- Regression index values 0, 1, ..., n-1 of the historical points. -/
def idx (trends : List CostTrend) : List ℚ :=
  (List.range trends.length).map (fun (i : ℕ) => (i : ℚ))

def sumX (trends : List CostTrend) : ℚ := (idx trends).sum

def sumY (trends : List CostTrend) : ℚ := (trends.map (fun tr => tr.totalCost)).sum

def sumXY (trends : List CostTrend) : ℚ :=
  (List.zipWith (fun x tr => x * tr.totalCost) (idx trends) trends).sum

def sumX2 (trends : List CostTrend) : ℚ := ((idx trends).map (fun x => x * x)).sum

/-- Least-squares slope of ForecastCosts:
(n * sumXY - sumX * sumY) / (n * sumX2 - sumX * sumX). -/
def slope (trends : List CostTrend) : ℚ :=
  ((trends.length : ℚ) * sumXY trends - sumX trends * sumY trends) /
    ((trends.length : ℚ) * sumX2 trends - sumX trends * sumX trends)

/-- Least-squares intercept of ForecastCosts: (sumY - slope * sumX) / n. -/
def intercept (trends : List CostTrend) : ℚ :=
  (sumY trends - slope trends * sumX trends) / (trends.length : ℚ)

/-- TotalCost of the last historical trend point (trends is nonempty whenever
these are used, since ForecastCosts requires at least 7 points). -/
def lastTotal (trends : List CostTrend) : ℚ := (trends.getLastD default).totalCost

/-- Date of the last historical trend point. -/
def lastDate (trends : List CostTrend) : ℤ := (trends.getLastD default).date

/-- Raw regression output for loop iteration i (i = 1 is the first forecast
day): slope * x + intercept with x = len(trends) + i - 1. -/
def rawPrediction (trends : List CostTrend) (i : ℕ) : ℚ :=
  slope trends * ((trends.length : ℚ) + (i : ℚ) - 1) + intercept trends

/-- Forecast point of loop iteration j + 1: the raw regression output, or
0.9 times the last historical total when that output is negative; the date
advances j + 1 days past the last historical date. ServiceCost and
ProjectCost stay empty as in the Go composite literal. -/
def forecastPoint (trends : List CostTrend) (j : ℕ) : CostTrend :=
  { date := lastDate trends + ((j : ℤ) + 1)
    totalCost :=
      if rawPrediction trends (j + 1) < 0 then lastTotal trends * (9 / 10)
      else rawPrediction trends (j + 1)
    serviceCost := []
    projectCost := [] }

/-- ForecastCosts on a precomputed trend sequence (the Go method first calls
GetCostTrends(30); the claims quantify over the trend input directly).
Fewer than 7 points is the insufficient-data error, modelled as none. The
loop for i := 1; i <= days; i++ runs days.toNat times (zero times for a
non-positive horizon). -/
def ForecastCosts (trends : List CostTrend) (days : ℤ) : Option (List CostTrend) :=
  if trends.length < 7 then none
  else some ((List.range days.toNat).map (forecastPoint trends))

/- Concrete inputs used by the witnesses and counterexamples. -/

/-- Two projects contributing to the same service on the same day. -/
def c1recs : List CostData :=
  [{ projectID := "P1", serviceName := "S", usageDate := 1, cost := 10, credits := 0 },
   { projectID := "P2", serviceName := "S", usageDate := 1, cost := 20, credits := 0 }]

/-- A historical record of the pair ("P1", "svc") with the given date and
net cost. -/
def histRec (d : ℤ) (c : ℚ) : CostData :=
  { projectID := "P1", serviceName := "svc", usageDate := d, cost := c, credits := 0 }

/-- Seven historical days with mean zero and nonzero variance, then an
evaluation-day spike: the baseline mean (expected cost) is exactly 0. -/
def c2recs : List CostData :=
  [histRec 1 3, histRec 2 (-3), histRec 3 3, histRec 4 (-3), histRec 5 3, histRec 6 (-3),
   histRec 7 0, histRec 8 30]

/-- Seven identical historical days (stddev 0) and a large evaluation-day
deviation. -/
def c3recs : List CostData :=
  [histRec 1 10, histRec 2 10, histRec 3 10, histRec 4 10, histRec 5 10, histRec 6 10,
   histRec 7 10, histRec 8 50]

/-- Seven historical days with mean 10 and sample variance 9 (stddev 3), and
an evaluation-day cost of 19: the z-score is exactly 3. -/
def c4recs : List CostData :=
  [histRec 1 13, histRec 2 7, histRec 3 13, histRec 4 7, histRec 5 13, histRec 6 7,
   histRec 7 10, histRec 8 19]

/-- The spec scenario: seven samples 10,12,9,11,10,13,8 and an evaluation-day
cost of 40. -/
def c8recs7 : List CostData :=
  [histRec 1 10, histRec 2 12, histRec 3 9, histRec 4 11, histRec 5 10, histRec 6 13,
   histRec 7 8, histRec 8 40]

/-- The same scenario truncated to six samples. -/
def c8recs6 : List CostData :=
  [histRec 1 10, histRec 2 12, histRec 3 9, histRec 4 11, histRec 5 10, histRec 6 13,
   histRec 8 40]

/-- A trend point carrying only a date and a total, as the forecaster
consumes and produces. -/
def trendPt (d : ℤ) (c : ℚ) : CostTrend :=
  { date := d, totalCost := c, serviceCost := [], projectCost := [] }

/-- Seven historical days decreasing by 10 per day: the regression line is
100 - 10 x and turns negative within a 5-day horizon. -/
def c5wtrends : List CostTrend :=
  [trendPt 1 100, trendPt 2 90, trendPt 3 80, trendPt 4 70, trendPt 5 60, trendPt 6 50,
   trendPt 7 40]

/-- Seven historical days with every total equal to -10 (net credits exceed
cost): the regression predicts -10 and the fallback 0.9 * (-10) is negative. -/
def c5negtrends : List CostTrend :=
  [trendPt 1 (-10), trendPt 2 (-10), trendPt 3 (-10), trendPt 4 (-10), trendPt 5 (-10),
   trendPt 6 (-10), trendPt 7 (-10)]

/-- Ten consecutive trend points whose totals increase by exactly 5 per day,
starting from b on day d. -/
def c9trends (b : ℚ) (d : ℤ) : List CostTrend :=
  (List.range 10).map (fun (j : ℕ) => trendPt (d + (j : ℤ)) (b + 5 * (j : ℚ)))

/-- The forecast that ForecastCosts produces from c5wtrends with horizon 5:
the regression line 100 - 10 x evaluated at x = 7..10 and, at x = 11, the
fallback 0.9 * 40 for the negative raw prediction -10. -/
def c5fs : List CostTrend :=
  [trendPt 8 30, trendPt 9 20, trendPt 10 10, trendPt 11 0, trendPt 12 36]

/-- The single finding DetectAnomalies emits on c2recs: the expected cost is
exactly 0 and deviationPct is produced by the division (actual - expected) /
expected anyway; in the Go float64 arithmetic this is a division by zero
(yielding an infinity), in the rational model it is the total function with
value 0. -/
def c2finding : Anomaly :=
  { date := 8, projectID := "P1", serviceName := "svc", actualCost := 30, expectedCost := 0,
    deviationPct := (30 - 0) / 0 * 100, severity := Severity.High }

/-- The single finding DetectAnomalies emits on c4recs: deviation 9 against
stddev 3, a z-score of exactly 3, classified Medium. -/
def c4finding : Anomaly :=
  { date := 8, projectID := "P1", serviceName := "svc", actualCost := 19, expectedCost := 10,
    deviationPct := 90, severity := Severity.Medium }

end CostService

namespace CostService

theorem severityOf_eq (v d2 : ℚ) (hv : 0 < v) :
    (severityOf v d2 = Severity.High ↔ 9 * v < d2) ∧
    (severityOf v d2 = Severity.Medium ↔ 4 * v < d2 ∧ d2 ≤ 9 * v) ∧
    (severityOf v d2 = Severity.Low ↔ d2 ≤ 4 * v) ∧
    (d2 = 9 * v → severityOf v d2 = Severity.Medium) := by
  unfold severityOf
  split_ifs with h1 h2
  · refine ⟨by simp [h1], ?_, ?_, ?_⟩
    · simp only [reduceCtorEq, false_iff]
      rintro ⟨h3, h4⟩
      linarith
    · simp only [reduceCtorEq, false_iff]
      intro h
      linarith
    · intro h
      exfalso
      linarith [h ▸ h1]
  · refine ⟨?_, ?_, ?_, ?_⟩
    · simp only [reduceCtorEq, false_iff]
      exact h1
    · simp only [true_iff]
      exact ⟨h2, le_of_not_lt h1⟩
    · simp only [reduceCtorEq, false_iff]
      intro h
      linarith
    · intro _
      rfl
  · refine ⟨?_, ?_, ?_, ?_⟩
    · simp only [reduceCtorEq, false_iff]
      exact h1
    · simp only [reduceCtorEq, false_iff]
      rintro ⟨h3, -⟩
      exact h2 h3
    · simp only [true_iff]
      exact le_of_not_lt h2
    · intro h
      exfalso
      have h4 := le_of_not_lt h2
      rw [h] at h4
      linarith

theorem varSamp_const (l : List ℚ) (h : ∀ x ∈ l, ∀ y ∈ l, x = y) : varSamp l = 0 := by
  rcases l with - | ⟨a, as⟩
  · simp [varSamp]
  · have hmean : mean (a :: as) = a := by
      have hsum : (a :: as).sum = ((a :: as).length : ℚ) * a := by
        have h2 := List.sum_eq_card_nsmul (a :: as) a
          (fun x hx => h x hx a (List.mem_cons_self a as))
        simpa [nsmul_eq_mul] using h2
      have hlen : ((a :: as).length : ℚ) ≠ 0 :=
        Nat.cast_ne_zero.mpr (Nat.succ_ne_zero as.length)
      rw [mean, hsum, mul_comm, mul_div_assoc, div_self hlen, mul_one]
    have hz : ((a :: as).map (fun x => (x - mean (a :: as)) ^ 2)).sum = 0 := by
      apply List.sum_eq_zero
      intro x hx
      rcases List.mem_map.mp hx with ⟨y, hy, rfl⟩
      rw [h y hy a (List.mem_cons_self a as), hmean]
      ring
    rw [varSamp, hz, zero_div]

theorem detect_c2recs_eval : DetectAnomalies c2recs 30 8 2 = [c2finding] := by
  simp [DetectAnomalies, recentPairs, c2recs, c2finding, histRec, firstKeys, firstKeysAux,
    scorePair, samples, sampleDates, dailyNet, netCost, baselineMean, baselineVar, evalCost,
    devOf, mean, varSamp, severityOf, List.filterMap_cons]
  norm_num

/-- C1. The claim says that for every TrendPoint of GetCostTrends the sum of
the costByService values equals totalCost (and likewise for costByProject),
even when two distinct projects contribute cost to the same service on the
same date, service keys being summed across projects. The code instead
overwrites the map entry (serviceCosts[name] = cost), so on two records of
date 1 for service S from projects P1 (net 10) and P2 (net 20) the produced
trend has totalCost 30 but serviceCost summing to 20: the partition
invariant the spec states, and the summation it intends, fail. -/
theorem C1_partition_violated_by_shared_service :
    GetCostTrends c1recs 30 1 =
      [{ date := 1, totalCost := 30, serviceCost := [("S", 20)],
         projectCost := [("P1", 10), ("P2", 20)] }] ∧
    ¬(∀ tp ∈ GetCostTrends c1recs 30 1, mapValuesSum tp.serviceCost = tp.totalCost) := by
  have h : GetCostTrends c1recs 30 1 =
      [{ date := 1, totalCost := 30, serviceCost := [("S", 20)],
         projectCost := [("P1", 10), ("P2", 20)] }] := by
    simp [GetCostTrends, c1recs, sortedDates, firstKeys, firstKeysAux, trendOn, pairsOn,
      dailyNet, netCost, mapInsert, List.insertionSort, List.orderedInsert]
    norm_num
  refine ⟨h, fun hall => ?_⟩
  have h1 := hall _ (by rw [h]; exact List.mem_singleton_self _)
  norm_num [mapValuesSum] at h1

/-- C2 (counterexample). On c2recs the detector emits a finding whose
expected cost is exactly 0, and its deviationPct field is produced by the
division (actual - expected) / expected all the same: no guard exists and
nothing is flagged undefined, contradicting the claim. -/
theorem C2_zero_expected_emitted :
    DetectAnomalies c2recs 30 8 2 = [c2finding] ∧ c2finding.expectedCost = 0 ∧
    c2finding.deviationPct =
      (c2finding.actualCost - c2finding.expectedCost) / c2finding.expectedCost * 100 :=
  ⟨detect_c2recs_eval, rfl, rfl⟩

/-- C2 (amended). Every finding emitted by DetectAnomalies has its
deviationPct computed unconditionally as
(actualCost - expectedCost) / expectedCost * 100, including when
expectedCost is exactly zero (a divide-by-zero artifact in the Go float64
arithmetic); no finding carries an undefined flag. -/
theorem C2_deviationPct_unconditional (records : List CostData) (days evalDate : ℤ)
    (t : ℚ) (a : Anomaly) (ha : a ∈ DetectAnomalies records days evalDate t) :
    a.deviationPct = (a.actualCost - a.expectedCost) / a.expectedCost * 100 := by
  unfold DetectAnomalies at ha
  rcases List.mem_filterMap.mp ha with ⟨ps, -, hf⟩
  unfold scorePair at hf
  split at hf
  · exact absurd hf (by simp)
  · split at hf
    · rw [Option.some.injEq] at hf
      subst hf
      rfl
    · exact absurd hf (by simp)

theorem C2_deviationPct_unconditional_witness :
    c2finding.deviationPct =
      (c2finding.actualCost - c2finding.expectedCost) / c2finding.expectedCost * 100 :=
  C2_deviationPct_unconditional c2recs 30 8 2 c2finding
    (by rw [detect_c2recs_eval]; exact List.mem_singleton_self _)

/-- C3. A (projectID, serviceName) pair whose historical daily-cost samples
are all identical (sample variance, hence standard deviation, exactly zero)
is never the subject of an emitted finding, whatever the threshold and
however far the evaluation-day cost deviates: the NULLIF(stddev, 0) makes
the z-score NULL and the WHERE filter drops the row. -/
theorem C3_zero_variance_excluded (records : List CostData) (days evalDate : ℤ) (t : ℚ)
    (p s : String)
    (hconst : ∀ x ∈ samples records days evalDate p s,
      ∀ y ∈ samples records days evalDate p s, x = y) :
    ∀ a ∈ DetectAnomalies records days evalDate t,
      ¬(a.projectID = p ∧ a.serviceName = s) := by
  intro a ha hand
  unfold DetectAnomalies at ha
  rcases List.mem_filterMap.mp ha with ⟨ps, -, hf⟩
  unfold scorePair at hf
  split at hf
  · exact absurd hf (by simp)
  · split at hf
    case isTrue hcond =>
      rw [Option.some.injEq] at hf
      subst hf
      dsimp only at hand
      rcases hand with ⟨hp, hs⟩
      subst hp
      subst hs
      have hv0 : baselineVar records days evalDate ps.1 ps.2 = 0 :=
        varSamp_const _ hconst
      rw [hv0] at hcond
      exact absurd hcond.1 (lt_irrefl 0)
    case isFalse => exact absurd hf (by simp)

theorem C3_zero_variance_excluded_witness :
    (DetectAnomalies c3recs 30 8 2).all
      (fun a => !(decide (a.projectID = "P1") && decide (a.serviceName = "svc"))) = true := by
  have h := C3_zero_variance_excluded c3recs 30 8 2 "P1" "svc" (by
    have hs : samples c3recs 30 8 "P1" "svc" = [10, 10, 10, 10, 10, 10, 10] := by
      simp [samples, sampleDates, c3recs, histRec, firstKeys, firstKeysAux, dailyNet, netCost]
    rw [hs]
    intro x hx y hy
    simp at hx hy
    rw [hx, hy])
  rw [List.all_eq_true]
  intro a ha
  simpa using not_and_or.mp (h a ha)

/-- C4. Every emitted finding has a strictly positive baseline variance,
and its severity follows the fixed thresholds evaluated high-to-low with the
first match winning. Stated on squares (d2 is the squared deviation, v the
variance, so the z-score squared is d2 / v): High exactly when z is above 3
(9 v < d2), Medium exactly when z is above 2 and at most 3, Low otherwise,
and in particular a z-score of exactly 3 (d2 = 9 v) is Medium, not High. -/
theorem C4_severity_thresholds (records : List CostData) (days evalDate : ℤ) (t : ℚ)
    (a : Anomaly) (ha : a ∈ DetectAnomalies records days evalDate t) :
    0 < baselineVar records days evalDate a.projectID a.serviceName ∧
    (a.severity = Severity.High ↔
      9 * baselineVar records days evalDate a.projectID a.serviceName <
        devOf records days evalDate a.projectID a.serviceName ^ 2) ∧
    (a.severity = Severity.Medium ↔
      (4 * baselineVar records days evalDate a.projectID a.serviceName <
        devOf records days evalDate a.projectID a.serviceName ^ 2 ∧
       devOf records days evalDate a.projectID a.serviceName ^ 2 ≤
        9 * baselineVar records days evalDate a.projectID a.serviceName)) ∧
    (a.severity = Severity.Low ↔
      devOf records days evalDate a.projectID a.serviceName ^ 2 ≤
        4 * baselineVar records days evalDate a.projectID a.serviceName) ∧
    (devOf records days evalDate a.projectID a.serviceName ^ 2 =
        9 * baselineVar records days evalDate a.projectID a.serviceName →
      a.severity = Severity.Medium) := by
  unfold DetectAnomalies at ha
  rcases List.mem_filterMap.mp ha with ⟨ps, -, hf⟩
  unfold scorePair at hf
  split at hf
  · exact absurd hf (by simp)
  · split at hf
    case isTrue hcond =>
      rw [Option.some.injEq] at hf
      subst hf
      dsimp only
      rcases severityOf_eq (baselineVar records days evalDate ps.1 ps.2)
        (devOf records days evalDate ps.1 ps.2 ^ 2) hcond.1 with ⟨e1, e2, e3, e4⟩
      exact ⟨hcond.1, e1, e2, e3, e4⟩
    case isFalse => exact absurd hf (by simp)

theorem C4_severity_thresholds_witness :
    0 < baselineVar c4recs 30 8 c4finding.projectID c4finding.serviceName ∧
    (c4finding.severity = Severity.High ↔
      9 * baselineVar c4recs 30 8 c4finding.projectID c4finding.serviceName <
        devOf c4recs 30 8 c4finding.projectID c4finding.serviceName ^ 2) ∧
    (c4finding.severity = Severity.Medium ↔
      (4 * baselineVar c4recs 30 8 c4finding.projectID c4finding.serviceName <
        devOf c4recs 30 8 c4finding.projectID c4finding.serviceName ^ 2 ∧
       devOf c4recs 30 8 c4finding.projectID c4finding.serviceName ^ 2 ≤
        9 * baselineVar c4recs 30 8 c4finding.projectID c4finding.serviceName)) ∧
    (c4finding.severity = Severity.Low ↔
      devOf c4recs 30 8 c4finding.projectID c4finding.serviceName ^ 2 ≤
        4 * baselineVar c4recs 30 8 c4finding.projectID c4finding.serviceName) ∧
    (devOf c4recs 30 8 c4finding.projectID c4finding.serviceName ^ 2 =
        9 * baselineVar c4recs 30 8 c4finding.projectID c4finding.serviceName →
      c4finding.severity = Severity.Medium) :=
  C4_severity_thresholds c4recs 30 8 2 c4finding (by
    have hev : DetectAnomalies c4recs 30 8 2 = [c4finding] := by
      simp [DetectAnomalies, recentPairs, c4recs, c4finding, histRec, firstKeys, firstKeysAux,
        scorePair, samples, sampleDates, dailyNet, netCost, baselineMean, baselineVar,
        evalCost, devOf, mean, varSamp, severityOf, List.filterMap_cons]
      norm_num
    rw [hev]
    exact List.mem_singleton_self _)

end CostService

namespace CostService

/-- C5 (counterexample). When the last historical total is negative the
fallback 0.9 times that total is negative as well: on seven days of constant
total -10 the single forecast point has totalCost -9, so a ForecastPoint can
carry a negative totalCost, contradicting the never-negative half of the
claim. -/
theorem C5_negative_forecast_output :
    ForecastCosts c5negtrends 1 = some [trendPt 8 (-9)] ∧ (trendPt 8 (-9)).totalCost < 0 := by
  constructor
  · simp [ForecastCosts, c5negtrends, forecastPoint, rawPrediction, slope, intercept, sumX,
      sumY, sumXY, sumX2, idx, lastDate, lastTotal, trendPt, List.range_succ]
    norm_num
  · norm_num [trendPt]

/-- C5 (amended). Whenever the raw regression output for a forecast position
is negative, the emitted totalCost is 0.9 times the last historical total
instead; consequently no forecast point is negative provided the last
historical totalCost is nonnegative (without that proviso the fallback
itself can be negative, see the counterexample). -/
theorem C5_forecast_floor (trends : List CostTrend) (days : ℤ) (fs : List CostTrend)
    (hf : ForecastCosts trends days = some fs) (i : ℕ) (hi : i < fs.length) :
    (rawPrediction trends (i + 1) < 0 →
      (fs.get ⟨i, hi⟩).totalCost = lastTotal trends * (9 / 10)) ∧
    (0 ≤ lastTotal trends → 0 ≤ (fs.get ⟨i, hi⟩).totalCost) := by
  unfold ForecastCosts at hf
  split at hf
  · exact absurd hf (by simp)
  · rw [Option.some.injEq] at hf
    subst hf
    simp only [List.get_eq_getElem, List.getElem_map, List.getElem_range] at hi ⊢
    unfold forecastPoint
    split_ifs with hneg
    · exact ⟨fun _ => rfl, fun h => mul_nonneg h (by norm_num)⟩
    · exact ⟨fun h => absurd h hneg, fun _ => le_of_not_lt hneg⟩

theorem C5_forecast_floor_witness :
    (c5fs.get ⟨4, by decide⟩).totalCost = lastTotal c5wtrends * (9 / 10) ∧
    0 ≤ (c5fs.get ⟨4, by decide⟩).totalCost := by
  have hf : ForecastCosts c5wtrends 5 = some c5fs := by
    simp [ForecastCosts, c5wtrends, c5fs, forecastPoint, rawPrediction, slope, intercept,
      sumX, sumY, sumXY, sumX2, idx, lastDate, lastTotal, trendPt, List.range_succ]
    norm_num
  have h := C5_forecast_floor c5wtrends 5 c5fs hf 4 (by decide)
  refine ⟨h.1 ?_, h.2 ?_⟩
  · simp [rawPrediction, slope, intercept, sumX, sumY, sumXY, sumX2, idx, c5wtrends, trendPt,
      List.range_succ]
    norm_num
  · simp [lastTotal, c5wtrends, trendPt]

/-- C6. ForecastCosts fails with the insufficient-data error exactly when the
historical trend sequence has fewer than 7 points: with fewer the regression
is never attempted (the result is the error, none), and with 7 or more the
call always produces a result. -/
theorem C6_insufficient_data_iff (trends : List CostTrend) (days : ℤ) :
    ForecastCosts trends days = none ↔ trends.length < 7 := by
  unfold ForecastCosts
  split <;> simp_all

/-- C7. With at least 7 historical points and a positive horizon H, the
forecast succeeds and returns exactly H points; the point at position i
carries date lastDate + i + 1 (hence every date is strictly after the last
historical date, and consecutive positions differ by exactly one day, so the
dates ascend), and its value is the regression output
slope * x + intercept at x = length + i, the forecast index continuing the
zero-based historical index sequence, subject to the negative-prediction
floor. -/
theorem C7_forecast_contract (trends : List CostTrend) (H : ℤ) (h7 : 7 ≤ trends.length)
    (hH : 0 < H) :
    ∃ fs, ForecastCosts trends H = some fs ∧ fs.length = H.toNat ∧ 0 < fs.length ∧
      (∀ i (hi : i < fs.length),
        (fs.get ⟨i, hi⟩).date = lastDate trends + ((i : ℤ) + 1) ∧
        lastDate trends < (fs.get ⟨i, hi⟩).date ∧
        (fs.get ⟨i, hi⟩).totalCost =
          (if rawPrediction trends (i + 1) < 0 then lastTotal trends * (9 / 10)
           else rawPrediction trends (i + 1))) ∧
      (∀ i (hi : i + 1 < fs.length),
        (fs.get ⟨i + 1, hi⟩).date = (fs.get ⟨i, Nat.lt_of_succ_lt hi⟩).date + 1) := by
  refine ⟨(List.range H.toNat).map (forecastPoint trends), ?_, by simp, ?_, ?_, ?_⟩
  · unfold ForecastCosts
    rw [if_neg (by omega)]
  · simp
    omega
  · intro i hi
    simp only [List.get_eq_getElem, List.getElem_map, List.getElem_range]
    refine ⟨rfl, ?_, rfl⟩
    show lastDate trends < lastDate trends + ((i : ℤ) + 1)
    omega
  · intro i hi
    simp only [List.get_eq_getElem, List.getElem_map, List.getElem_range]
    show lastDate trends + ((((i : ℕ) + 1 : ℕ) : ℤ) + 1) = lastDate trends + ((i : ℤ) + 1) + 1
    push_cast
    ring

theorem C7_forecast_contract_witness :
    ∃ fs, ForecastCosts c5wtrends 2 = some fs ∧ fs.length = (2 : ℤ).toNat ∧ 0 < fs.length ∧
      (∀ i (hi : i < fs.length),
        (fs.get ⟨i, hi⟩).date = lastDate c5wtrends + ((i : ℤ) + 1) ∧
        lastDate c5wtrends < (fs.get ⟨i, hi⟩).date ∧
        (fs.get ⟨i, hi⟩).totalCost =
          (if rawPrediction c5wtrends (i + 1) < 0 then lastTotal c5wtrends * (9 / 10)
           else rawPrediction c5wtrends (i + 1))) ∧
      (∀ i (hi : i + 1 < fs.length),
        (fs.get ⟨i + 1, hi⟩).date = (fs.get ⟨i, Nat.lt_of_succ_lt hi⟩).date + 1) :=
  C7_forecast_contract c5wtrends 2 (by decide) (by decide)

/-- C8. Baseline gating of the detector: a pair with exactly 6 historical
daily samples never appears in any finding (the HAVING clause requires at
least 7, and short pairs are dropped silently rather than reported), while a
pair with exactly 7 samples is eligible, witnessed by the spec scenario
c8recs7 where the pair with 7 samples produces a High finding. -/
theorem C8_baseline_gating (records : List CostData) (days evalDate : ℤ) (t : ℚ)
    (p s : String) :
    ((samples records days evalDate p s).length = 6 →
      ∀ a ∈ DetectAnomalies records days evalDate t,
        ¬(a.projectID = p ∧ a.serviceName = s)) ∧
    ((samples c8recs7 30 8 "P1" "svc").length = 7 ∧
      ∃ a ∈ DetectAnomalies c8recs7 30 8 2,
        a.projectID = "P1" ∧ a.serviceName = "svc" ∧ a.severity = Severity.High) := by
  constructor
  · intro hlen a ha hand
    unfold DetectAnomalies at ha
    rcases List.mem_filterMap.mp ha with ⟨ps, -, hf⟩
    unfold scorePair at hf
    split at hf
    case isTrue => exact absurd hf (by simp)
    case isFalse h7 =>
      split at hf
      case isTrue =>
        rw [Option.some.injEq] at hf
        subst hf
        dsimp only at hand
        rcases hand with ⟨hp, hs⟩
        subst hp
        subst hs
        omega
      case isFalse => exact absurd hf (by simp)
  · constructor
    · simp [samples, sampleDates, c8recs7, histRec, firstKeys, firstKeysAux]
    · have hev : DetectAnomalies c8recs7 30 8 2 =
          [{ date := 8, projectID := "P1", serviceName := "svc", actualCost := 40,
             expectedCost := 73 / 7, deviationPct := 20700 / 73,
             severity := Severity.High }] := by
        simp [DetectAnomalies, recentPairs, c8recs7, histRec, firstKeys, firstKeysAux,
          scorePair, samples, sampleDates, dailyNet, netCost, baselineMean, baselineVar,
          evalCost, devOf, mean, varSamp, severityOf, List.filterMap_cons]
        norm_num
      rw [hev]
      exact ⟨_, List.mem_singleton_self _, rfl, rfl, rfl⟩

theorem C8_baseline_gating_witness :
    (DetectAnomalies c8recs6 30 8 2).all
      (fun a => !(decide (a.projectID = "P1") && decide (a.serviceName = "svc"))) = true := by
  have h := (C8_baseline_gating c8recs6 30 8 2 "P1" "svc").1 (by
    simp [samples, sampleDates, c8recs6, histRec, firstKeys, firstKeysAux])
  rw [List.all_eq_true]
  intro a ha
  simpa using not_and_or.mp (h a ha)

/-- C9 (counterexample). Ten consecutive points increasing by exactly 5 per
day but starting at -100 stay negative, the regression predictions -50, -45,
-40 are all negative, and the floor replaces each with 0.9 times the last
total -55: every forecast total is -49.5, and the first one differs from
lastTotal + 5, so the forecast does not continue the arithmetic
progression. -/
theorem C9_progression_counterexample :
    ForecastCosts (c9trends (-100) 0) 3 =
      some [trendPt 10 (-99 / 2), trendPt 11 (-99 / 2), trendPt 12 (-99 / 2)] ∧
    (trendPt 10 (-99 / 2)).totalCost ≠ lastTotal (c9trends (-100) 0) + 5 := by
  constructor
  · simp [ForecastCosts, c9trends, forecastPoint, rawPrediction, slope, intercept, sumX, sumY,
      sumXY, sumX2, idx, lastDate, lastTotal, trendPt, List.range_succ]
    norm_num
  · simp [trendPt, lastTotal, c9trends, List.range_succ]
    norm_num

/-- C9 (amended). For ten consecutive trend points increasing by exactly 5
per day from a nonnegative start b (so that the continued progression is
nonnegative and the negative-prediction floor never fires), the horizon-3
forecast continues the arithmetic progression exactly: the fitted slope is 5,
the intercept is b, and the three forecast totals are b + 50, b + 55,
b + 60 on the three days after the last historical date. -/
theorem C9_progression_amended (b : ℚ) (d : ℤ) (hb : 0 ≤ b) :
    ForecastCosts (c9trends b d) 3 =
      some [trendPt (d + 10) (b + 50), trendPt (d + 11) (b + 55),
        trendPt (d + 12) (b + 60)] := by
  have hrange : List.range 10 = [0, 1, 2, 3, 4, 5, 6, 7, 8, 9] := rfl
  have hlen : (c9trends b d).length = 10 := by
    unfold c9trends
    rw [List.length_map, List.length_range]
  have hY : sumY (c9trends b d) = 10 * b + 225 := by
    simp [sumY, c9trends, hrange, trendPt]
    ring
  have hX : sumX (c9trends b d) = 45 := by
    simp [sumX, idx, hlen, hrange]
    norm_num
  have hXY : sumXY (c9trends b d) = 45 * b + 1425 := by
    simp [sumXY, idx, c9trends, hrange, trendPt]
    ring
  have hX2 : sumX2 (c9trends b d) = 285 := by
    simp [sumX2, idx, hlen, hrange]
    norm_num
  have hs : slope (c9trends b d) = 5 := by
    rw [slope, hXY, hX, hY, hX2, hlen]
    push_cast
    rw [div_eq_iff (by norm_num)]
    ring
  have hic : intercept (c9trends b d) = b := by
    rw [intercept, hY, hX, hs, hlen]
    push_cast
    rw [div_eq_iff (by norm_num)]
    ring
  have hlast : lastDate (c9trends b d) = d + 9 := by
    simp [lastDate, c9trends, hrange, trendPt]
  have hpred : ∀ j : ℕ, rawPrediction (c9trends b d) (j + 1) = b + 50 + 5 * (j : ℚ) := by
    intro j
    rw [rawPrediction, hs, hic, hlen]
    push_cast
    ring
  have hfp : ∀ j : ℕ,
      forecastPoint (c9trends b d) j = trendPt (d + 10 + (j : ℤ)) (b + 50 + 5 * (j : ℚ)) := by
    intro j
    have h5 : (0 : ℚ) ≤ 5 * (j : ℚ) := by positivity
    rw [forecastPoint, hpred j, hlast, if_neg (not_lt.mpr (by linarith))]
    simp only [trendPt, CostTrend.mk.injEq, and_true]
    omega
  unfold ForecastCosts
  rw [if_neg (by rw [hlen]; norm_num)]
  rw [show (3 : ℤ).toNat = 3 from rfl, show List.range 3 = [0, 1, 2] from rfl]
  simp only [List.map_cons, List.map_nil, hfp 0, hfp 1, hfp 2, trendPt, Option.some.injEq,
    List.cons.injEq, CostTrend.mk.injEq, and_true]
  push_cast
  repeat' apply And.intro
  all_goals first | omega | ring

theorem C9_progression_amended_witness :
    ForecastCosts (c9trends 10 1) 3 =
      some [trendPt (1 + 10) (10 + 50), trendPt (1 + 11) (10 + 55),
        trendPt (1 + 12) (10 + 60)] :=
  C9_progression_amended 10 1 (by norm_num)

/-- C10. A non-positive horizon with sufficient history is not an error: with
at least 7 trend points and days at most 0 the loop body never runs and
ForecastCosts returns an empty forecast (some [] rather than the
insufficient-data failure, which concerns only the historical point
count). -/
theorem C10_nonpositive_horizon_empty (trends : List CostTrend) (days : ℤ)
    (h7 : 7 ≤ trends.length) (hd : days ≤ 0) : ForecastCosts trends days = some [] := by
  unfold ForecastCosts
  rw [if_neg (by omega), Int.toNat_of_nonpos hd]
  simp

theorem C10_nonpositive_horizon_empty_witness : ForecastCosts c5wtrends (-3) = some [] :=
  C10_nonpositive_horizon_empty c5wtrends (-3) (by decide) (by decide)

end CostService
